import Mathlib

/-!
Verification development for the vocal-agent-fr-live client logic.

The definitions below are a shallow embedding of the client code:
the React client (`examples/react-client/src/App.jsx`) and, where a
claim also cites it, the Flutter client
(`examples/flutter-client/lib/main.dart`).

Samples are modelled as exact rationals (ℚ); machine int16 values as ℤ
with the clamp guaranteeing the int16 range is never left.  JavaScript
assignment of a float to an `Int16Array` truncates toward zero, which
`truncQ` models.
-/

/-- Clamp of one sample, from `App.jsx` line 273:
`Math.max(-1, Math.min(1, float32[i]))`. -/
def clampSample (x : ℚ) : ℚ := max (-1) (min 1 x)

/-- Truncation toward zero: the conversion applied when a JavaScript
number is stored into an `Int16Array` (ToInt16 truncates; the clamp in
`encodeSample` keeps the value inside the int16 range, so the modular
wrap of ToInt16 never acts). -/
def truncQ (q : ℚ) : ℤ := if 0 ≤ q then ⌊q⌋ else ⌈q⌉

/-- Capture-side encoding of one sample, from `App.jsx` lines 272-274:
`int16[i] = Math.max(-1, Math.min(1, float32[i])) * 32767`. -/
def encodeSample (x : ℚ) : ℤ := truncQ (clampSample x * 32767)

/-- Playback-side decoding of one sample, from `App.jsx` lines 238-239:
`float32[i] = int16[i] / 32768`. -/
def decodeSample (n : ℤ) : ℚ := (n : ℚ) / 32768

/-- Decoding of a whole binary frame (`playAudioQueue` inner loop). -/
def decodeFrame (d : List ℤ) : List ℚ := d.map decodeSample

/-- One log entry as produced by `addLog(type, message)` in both
clients; the wall-clock timestamp is not modelled. -/
structure LogEntry where
  category : String
  message : String
deriving DecidableEq, Repr

/-- `addLog` in `App.jsx` lines 139-142:
`setLogs(prev => [...prev.slice(-100), entry])` — keep the most recent
100 entries, then append the new one. -/
def logsPush (l : List LogEntry) (e : LogEntry) : List LogEntry :=
  l.drop (l.length - 100) ++ [e]

/-- The control-message dispatcher of the React client, `ws.onmessage`
in `App.jsx` lines 177-199.  A JavaScript `switch` compares the
scrutinee against each case label in turn, which the if-chain mirrors.
`text` models `msg.text` and `msg` models `msg.message`. -/
def reactDispatch (ty text msg : String) : LogEntry :=
  if ty = "session.created" then ⟨"system", "🎙️ Session prête"⟩
  else if ty = "transcription" then ⟨"user", "🗣️ " ++ text⟩
  else if ty = "response.text" then ⟨"agent", "🤖 " ++ text⟩
  else if ty = "audio.start" then ⟨"audio", "🔊 Audio en cours..."⟩
  else if ty = "audio.end" then ⟨"audio", "🔇 Audio terminé"⟩
  else if ty = "error" then ⟨"error", "❌ " ++ msg⟩
  else ⟨"system", "[" ++ ty ++ "]"⟩

/-- The control-message dispatcher of the Flutter client,
`_handleJsonMessage` in `main.dart` lines 151-174 (same switch). -/
def flutterDispatch (ty text msg : String) : LogEntry :=
  if ty = "session.created" then ⟨"system", "🎙️ Session prête"⟩
  else if ty = "transcription" then ⟨"user", "🗣️ " ++ text⟩
  else if ty = "response.text" then ⟨"agent", "🤖 " ++ text⟩
  else if ty = "audio.start" then ⟨"audio", "🔊 Audio en cours..."⟩
  else if ty = "audio.end" then ⟨"audio", "🔇 Audio terminé"⟩
  else if ty = "error" then ⟨"error", "❌ " ++ msg⟩
  else ⟨"system", "[" ++ ty ++ "]"⟩

/-- The message types the dispatch switch handles with a dedicated case
(every other type falls to the default arm). -/
def recognizedTypes : List String :=
  ["session.created", "transcription", "response.text",
   "audio.start", "audio.end", "error"]

/-- JavaScript `String.prototype.trim` (and Dart `String.trim`):
strip whitespace from both ends.  Defined over the character list so
that concrete instances evaluate inside the kernel. -/
def trimStr (s : String) : String :=
  ⟨((s.data.dropWhile Char.isWhitespace).reverse.dropWhile
      Char.isWhitespace).reverse⟩

/-- WebSocket readyState constants (WHATWG): CONNECTING = 0. -/
def WS_CONNECTING : Nat := 0

/-- WebSocket readyState OPEN = 1 (`WebSocket.OPEN` in `App.jsx`). -/
def WS_OPEN : Nat := 1

/-- WebSocket readyState CLOSED = 3. -/
def WS_CLOSED : Nat := 3

/-- A record of one invocation of the transport's send operation,
remembering the readyState of the socket at the moment of the call.
For a binary send the payload is the encoded int16 frame; for a text
send it is the trimmed user text (the JSON envelope
`type: input.text` around it is not modelled). -/
inductive SendCall where
  | binary (samples : List ℤ) (rs : Nat)
  | text (payload : String) (rs : Nat)
deriving DecidableEq, Repr

/-- The `while (queue.length > 0) { shift; decode; schedule }` loop of
`playAudioQueue` (`App.jsx` lines 234-248): repeatedly dequeue the
front frame, decode it and append it to the scheduled-playback list. -/
def drainQueue : List (List ℤ) → List (List ℚ) → List (List ℤ) × List (List ℚ)
  | [], played => ([], played)
  | f :: rest, played => drainQueue rest (played ++ [decodeFrame f])

/-- The mutable client state of the React component: the refs
(`wsRef` holds the readyState of the referenced socket when a
reference is held, `mediaRecorderRef` is modelled by the Boolean
`mediaRecorder`), the React state flags, the log list, the playback
queue, plus two histories recorded for verification: the frames handed
to the playback scheduler in order (`played`), and every invocation of
the WebSocket send operation (`sendCalls`). `releases` counts how many
times the capture resources (processor, source, context, tracks) were
torn down. -/
structure ClientState where
  wsRef : Option Nat
  isConnected : Bool
  isRecording : Bool
  mediaRecorder : Bool
  releases : Nat
  logs : List LogEntry
  audioQueue : List (List ℤ)
  played : List (List ℚ)
  sendCalls : List SendCall
deriving DecidableEq, Repr

/-- The events the React client reacts to: the WebSocket `onopen`,
`onclose` handlers, the user-driven `disconnect`, `sendText`,
`startRecording` (with the outcome of `getUserMedia`), `stopRecording`,
and the two kinds of inbound `onmessage` frames. -/
inductive Event where
  | openEvt
  | closeEvt
  | userDisconnect
  | sendTextEvt (txt : String)
  | audioEvt (frame : List ℚ)
  | startRecEvt (ok : Bool)
  | stopRecEvt
  | recvBinary (data : List ℤ)
  | recvText (ty text msg : String)
deriving DecidableEq, Repr

/-- One step of the client, each branch translated from `App.jsx`:
`ws.onopen` (166-169), `ws.onclose` (203-206), `disconnect` (219-223),
`sendText` (304-312), `processor.onaudioprocess` (268-277),
`startRecording` (252-288), `stopRecording` (290-301), and
`ws.onmessage` (171-201) for binary and textual frames. -/
def step (s : ClientState) : Event → ClientState
  | .openEvt =>
      if s.wsRef = none then s
      else { s with
             wsRef := some WS_OPEN
             isConnected := true
             logs := logsPush s.logs ⟨"system", "Connecté — session"⟩ }
  | .closeEvt =>
      if s.wsRef = none then s
      else { s with
             wsRef := some WS_CLOSED
             isConnected := false
             logs := logsPush s.logs ⟨"system", "Déconnecté"⟩ }
  | .userDisconnect => { s with wsRef := none, isConnected := false }
  | .sendTextEvt txt =>
      if trimStr txt = "" ∨ s.wsRef = none then s
      else { s with
             sendCalls := s.sendCalls
               ++ [SendCall.text (trimStr txt) (s.wsRef.getD WS_CLOSED)]
             logs := logsPush s.logs ⟨"user", "📝 " ++ trimStr txt⟩ }
  | .audioEvt frame =>
      if s.wsRef = some WS_OPEN then
        { s with sendCalls := s.sendCalls
            ++ [SendCall.binary (frame.map encodeSample) WS_OPEN] }
      else s
  | .startRecEvt ok =>
      if ok then
        { s with
          mediaRecorder := true
          isRecording := true
          logs := logsPush s.logs ⟨"system", "🎤 Enregistrement démarré"⟩ }
      else { s with logs := logsPush s.logs ⟨"error", "Micro inaccessible"⟩ }
  | .stopRecEvt =>
      let s1 := if s.mediaRecorder then
          { s with mediaRecorder := false, releases := s.releases + 1 }
        else s
      { s1 with
        isRecording := false
        logs := logsPush s1.logs ⟨"system", "🎤 Enregistrement arrêté"⟩ }
  | .recvBinary data =>
      let d := drainQueue (s.audioQueue ++ [data]) s.played
      { s with audioQueue := d.1, played := d.2 }
  | .recvText ty text msg =>
      { s with logs := logsPush s.logs (reactDispatch ty text msg) }

/-- The component's initial state: no refs held, nothing recorded. -/
def initClientState : ClientState :=
  ⟨none, false, false, false, 0, [], [], [], []⟩

/-- The state right after `connect` succeeded: `wsRef` holds a socket
that is still CONNECTING (a fresh `WebSocket` starts in that state). -/
def connectedInit : ClientState :=
  { initClientState with wsRef := some WS_CONNECTING }

/-- A connected state in which capture is currently recording. -/
def recordingState : ClientState :=
  { connectedInit with
    wsRef := some WS_OPEN
    isConnected := true
    mediaRecorder := true
    isRecording := true }

/-- The response of the single `POST /start-session` request, as the
clients consume it: the HTTP status plus the two body fields they
read. -/
structure HandshakeResp where
  status : Nat
  sessionId : String
  websocketUrl : String
deriving DecidableEq, Repr

/-- The fetch `Response.ok` flag the React client tests
(`if (!res.ok) throw ...`): true exactly for a 2xx status. -/
def fetchOk (st : Nat) : Bool := 200 ≤ st && st ≤ 299

/-- What the connect routine did: how many handshake requests it made,
the URL of the WebSocket it constructed (if any), the error entries it
logged, and the connected flag when the routine returns. -/
structure ConnectResult where
  attempts : Nat
  wsUrl : Option String
  errorLogs : List LogEntry
  connectedFlag : Bool
deriving DecidableEq, Repr

/-- `connect` in `App.jsx` lines 145-217 as a function of the
handshake response: one `fetch` of `/start-session` is performed; if
`res.ok` fails, the thrown `HTTP status` error is caught and logged and
nothing else happens; otherwise a WebSocket is constructed on the URL
from the response body.  `isConnected` is set only later, by
`ws.onopen`. -/
def reactConnect (r : HandshakeResp) : ConnectResult :=
  if fetchOk r.status then
    { attempts := 1, wsUrl := some r.websocketUrl
      errorLogs := [], connectedFlag := false }
  else
    { attempts := 1, wsUrl := none
      errorLogs :=
        [⟨"error", "Connexion échouée: HTTP " ++ toString r.status⟩]
      connectedFlag := false }

/-- `_connect` in `main.dart` lines 84-138 as a function of the
handshake response: a non-200 status logs `Erreur HTTP: status` and
returns; on 200 a WebSocketChannel is opened on
`ws://localhost:8765/ws/` followed by the session id, and
`_isConnected` is set immediately. -/
def flutterConnect (r : HandshakeResp) : ConnectResult :=
  if r.status = 200 then
    { attempts := 1, wsUrl := some ("ws://localhost:8765/ws/" ++ r.sessionId)
      errorLogs := [], connectedFlag := true }
  else
    { attempts := 1, wsUrl := none
      errorLogs := [⟨"error", "Erreur HTTP: " ++ toString r.status⟩]
      connectedFlag := false }

theorem clampSample_le_one (x : ℚ) : clampSample x ≤ 1 := by
  unfold clampSample
  exact max_le (by norm_num) (min_le_left _ _)

theorem neg_one_le_clampSample (x : ℚ) : -1 ≤ clampSample x :=
  le_max_left _ _

theorem encodeSample_le (x : ℚ) : encodeSample x ≤ 32767 := by
  unfold encodeSample truncQ
  have h1 : clampSample x * 32767 ≤ 32767 := by
    have := clampSample_le_one x
    nlinarith
  split
  · have : ⌊clampSample x * 32767⌋ ≤ ⌊(32767 : ℚ)⌋ := Int.floor_le_floor h1
    simpa using this
  · have : ⌈clampSample x * 32767⌉ ≤ ⌈(32767 : ℚ)⌉ := Int.ceil_le_ceil h1
    simpa using this

theorem le_encodeSample (x : ℚ) : -32767 ≤ encodeSample x := by
  unfold encodeSample truncQ
  have h1 : (-32767 : ℚ) ≤ clampSample x * 32767 := by
    have := neg_one_le_clampSample x
    nlinarith
  split
  · have : ⌊(-32767 : ℚ)⌋ ≤ ⌊clampSample x * 32767⌋ := Int.floor_le_floor h1
    simpa using this
  · have h2 : (-32767 : ℚ) ≤ (⌈clampSample x * 32767⌉ : ℚ) :=
      le_trans h1 (Int.le_ceil _)
    exact_mod_cast h2

/-- C4: For every input sample, including values outside [-1,1], the
capture-side encoder clamps before scaling by 32767, so every produced
integer sample lies within the signed 16-bit range [-32768, 32767]
(in fact within [-32767, 32767]). -/
theorem c4_encode_in_int16_range (x : ℚ) :
    -32768 ≤ encodeSample x ∧ encodeSample x ≤ 32767 ∧
      encodeSample x = truncQ (clampSample x * 32767) :=
  ⟨le_trans (by norm_num) (le_encodeSample x), encodeSample_le x, rfl⟩

theorem truncQ_close (z : ℚ) : |(truncQ z : ℚ) - z| < 1 := by
  unfold truncQ
  split
  · rw [abs_lt]
    constructor
    · linarith [Int.sub_one_lt_floor z]
    · linarith [Int.floor_le z]
  · rw [abs_lt]
    constructor
    · linarith [Int.le_ceil z]
    · linarith [Int.ceil_lt_add_one z]

/-- C3 (counterexample): the claimed quantization bound 1/32768 fails at
the input sample 9/10: the encoder truncates 32767 * 9/10 = 29490.3 down
to 29490, the decoder returns 29490/32768, and the round-trip error is
3/81920 > 1/32768. -/
theorem c3_bound_counterexample :
    ¬ |decodeSample (encodeSample (9/10)) - 9/10| ≤ 1/32768 := by
  have h : encodeSample (9/10) = 29490 := by
    norm_num [encodeSample, clampSample, truncQ]
  rw [h]
  norm_num [decodeSample, abs_le]

/-- C3 (amended): because the int16 conversion truncates toward zero
rather than rounding to nearest, the round trip
decode(encode(x)) = truncQ(clamp(x) * 32767) / 32768 satisfies the bound
|decode(encode(x)) - clamp(x)| < 2/32768 for every input x (and hence
for every x in [-1,1], where clamp(x) = x); the claimed 1/32768 does not
hold. -/
theorem c3_roundtrip_two_ulp (x : ℚ) :
    |decodeSample (encodeSample x) - clampSample x| < 2/32768 := by
  have habs : |clampSample x| ≤ 1 :=
    abs_le.mpr ⟨neg_one_le_clampSample x, clampSample_le_one x⟩
  have h1 : |((encodeSample x : ℤ) : ℚ) - clampSample x * 32767| < 1 :=
    truncQ_close (clampSample x * 32767)
  have h2 : decodeSample (encodeSample x) - clampSample x
      = (((encodeSample x : ℤ) : ℚ) - clampSample x * 32767 - clampSample x)
        / 32768 := by
    unfold decodeSample; ring
  have h3 : |((encodeSample x : ℤ) : ℚ) - clampSample x * 32767
      - clampSample x| < 2 := by
    calc |((encodeSample x : ℤ) : ℚ) - clampSample x * 32767 - clampSample x|
        ≤ |((encodeSample x : ℤ) : ℚ) - clampSample x * 32767|
          + |clampSample x| := by
          rw [sub_eq_add_neg _ (clampSample x)]
          exact (abs_add _ _).trans (by rw [abs_neg])
      _ < 1 + 1 := add_lt_add_of_lt_of_le h1 habs
      _ = 2 := by norm_num
  rw [h2, abs_div, show |(32768 : ℚ)| = 32768 by norm_num]
  rw [div_lt_div_iff₀ (by norm_num) (by norm_num)]
  linarith

theorem drainQueue_spec (q : List (List ℤ)) :
    ∀ p : List (List ℚ), drainQueue q p = ([], p ++ q.map decodeFrame) := by
  induction q with
  | nil => intro p; simp [drainQueue]
  | cons f rest ih =>
      intro p
      simp [drainQueue, ih]

theorem recvBinary_fold (fs : List (List ℤ)) :
    ∀ s : ClientState, s.audioQueue = [] →
      ((fs.map Event.recvBinary).foldl step s).played
          = s.played ++ fs.map decodeFrame
        ∧ ((fs.map Event.recvBinary).foldl step s).audioQueue = [] := by
  induction fs with
  | nil => intro s hs; exact ⟨by simp, hs⟩
  | cons f rest ih =>
      intro s hs
      have hstep : step s (Event.recvBinary f)
          = { s with
              audioQueue := []
              played := s.played ++ [decodeFrame f] } := by
        simp [step, hs, drainQueue_spec]
      simp only [List.map_cons, List.foldl_cons, hstep]
      have h2 := ih { s with
        audioQueue := []
        played := s.played ++ [decodeFrame f] } rfl
      refine ⟨?_, h2.2⟩
      rw [h2.1]
      simp

/-- C1: Frames are played in strict arrival order: enqueueing any
sequence of binary frames one `onmessage` at a time schedules exactly
those frames, decoded, in enqueue order (FIFO) and leaves the queue
empty; moreover each single drain triggered by a new arrival dequeues
all currently queued frames, in order, with no frame skipped. -/
theorem c1_playback_fifo (s t : ClientState) (fs : List (List ℤ))
    (f : List ℤ) (hq : s.audioQueue = []) :
    ((fs.map Event.recvBinary).foldl step s).played
        = s.played ++ fs.map decodeFrame
    ∧ ((fs.map Event.recvBinary).foldl step s).audioQueue = []
    ∧ (step t (Event.recvBinary f)).played
        = t.played ++ (t.audioQueue ++ [f]).map decodeFrame
    ∧ (step t (Event.recvBinary f)).audioQueue = [] := by
  have h := recvBinary_fold fs s hq
  refine ⟨h.1, h.2, ?_, ?_⟩ <;> simp [step, drainQueue_spec]

theorem c1_playback_fifo_witness :
    initClientState.audioQueue = []
    ∧ ((([[(1 : ℤ)], [2, 3]]).map Event.recvBinary).foldl step
          initClientState).played
        = initClientState.played ++ ([[(1 : ℤ)], [2, 3]]).map decodeFrame
    ∧ ((([[(1 : ℤ)], [2, 3]]).map Event.recvBinary).foldl step
          initClientState).audioQueue = []
    ∧ (step recordingState (Event.recvBinary [4])).played
        = recordingState.played
          ++ (recordingState.audioQueue ++ [[4]]).map decodeFrame
    ∧ (step recordingState (Event.recvBinary [4])).audioQueue = [] :=
  ⟨rfl, c1_playback_fifo initClientState recordingState [[1], [2, 3]] [4] rfl⟩

/-- C5: A captured audio frame produced while the transport does not
report OPEN (no socket reference, or a socket in any non-OPEN
readyState) is silently dropped: the step is a no-op on the whole
client state — nothing is sent, nothing is buffered, no log or error
is produced. -/
theorem c5_drop_frame_when_not_open (s : ClientState) (f : List ℚ)
    (h : ¬ s.wsRef = some WS_OPEN) :
    step s (Event.audioEvt f) = s := by
  simp [step, h]

theorem c5_drop_frame_when_not_open_witness :
    ¬ initClientState.wsRef = some WS_OPEN
    ∧ step initClientState (Event.audioEvt [1/2]) = initClientState :=
  ⟨by decide,
   c5_drop_frame_when_not_open initClientState [1/2] (by decide)⟩

/-- C6 (counterexample): after `onClose` fires, the client does NOT
drop its connection reference (`ws.onclose` only clears the connected
flag; only `disconnect()` nulls `wsRef`), and `sendText` checks only
that a reference exists — so in the trace open, close, sendText the
send operation IS invoked on the closed connection (readyState
CLOSED), contradicting the claim. -/
theorem c6_counterexample :
    (([Event.openEvt, Event.closeEvt,
        Event.sendTextEvt "Salut"].foldl step connectedInit).sendCalls
      = [SendCall.text "Salut" WS_CLOSED])
    ∧ ([Event.openEvt, Event.closeEvt].foldl step connectedInit).wsRef
      = some WS_CLOSED
    ∧ WS_CLOSED ≠ WS_OPEN := by
  refine ⟨?_, ?_, by decide⟩ <;> rfl

/-- C6 (amended): the connection reference is dropped only by an
explicit `disconnect()`, not by the `onClose` event; after
`disconnect()` (reference gone) neither `sendText` nor a capture frame
does anything, and the capture path never invokes send on a socket
that is not OPEN — but `sendText` after a bare `onClose` still sends
on the closed connection (see the counterexample). -/
theorem c6_no_send_after_disconnect (s t : ClientState) (txt : String)
    (f : List ℚ) (hs : s.wsRef = none) (ht : ¬ t.wsRef = some WS_OPEN) :
    step s (Event.sendTextEvt txt) = s
    ∧ step s (Event.audioEvt f) = s
    ∧ (step t Event.userDisconnect).wsRef = none
    ∧ (step t (Event.audioEvt f)).sendCalls = t.sendCalls := by
  refine ⟨by simp [step, hs], by simp [step, hs], rfl, by simp [step, ht]⟩

theorem c6_no_send_after_disconnect_witness :
    initClientState.wsRef = none
    ∧ ¬ connectedInit.wsRef = some WS_OPEN
    ∧ (step initClientState (Event.sendTextEvt "Salut") = initClientState
      ∧ step initClientState (Event.audioEvt [1/2]) = initClientState
      ∧ (step connectedInit Event.userDisconnect).wsRef = none
      ∧ (step connectedInit (Event.audioEvt [1/2])).sendCalls
        = connectedInit.sendCalls) :=
  ⟨rfl, by decide,
   c6_no_send_after_disconnect initClientState connectedInit "Salut" [1/2]
     rfl (by decide)⟩

/-- C8 (counterexample): `disconnect()` only closes the socket and
drops the reference; it does NOT stop the Capture Pipeline.  From a
state that is recording, after `disconnect()` the media-recorder
resources are still held, the recording flag is still set, and nothing
was released. -/
theorem c8_counterexample :
    recordingState.isRecording = true
    ∧ (step recordingState Event.userDisconnect).wsRef = none
    ∧ (step recordingState Event.userDisconnect).isRecording = true
    ∧ (step recordingState Event.userDisconnect).mediaRecorder = true
    ∧ (step recordingState Event.userDisconnect).releases
      = recordingState.releases := by
  refine ⟨rfl, rfl, rfl, rfl, rfl⟩

/-- C8 (amended): `disconnect()` closes the streaming connection
(drops the socket reference and clears the connected flag) but leaves
the Capture Pipeline untouched; the capture is stopped only when
`stopRecording` also runs (as the unmount cleanup does: disconnect then
stopRecording), after which the microphone resources have been
released exactly once and recording is off. -/
theorem c8_disconnect_leaves_capture (s : ClientState)
    (hrec : s.mediaRecorder = true) :
    step s Event.userDisconnect
        = { s with wsRef := none, isConnected := false }
    ∧ (step (step s Event.userDisconnect) Event.stopRecEvt).mediaRecorder
        = false
    ∧ (step (step s Event.userDisconnect) Event.stopRecEvt).releases
        = s.releases + 1
    ∧ (step (step s Event.userDisconnect) Event.stopRecEvt).isRecording
        = false := by
  refine ⟨rfl, ?_, ?_, ?_⟩ <;> simp [step, hrec]

theorem c8_disconnect_leaves_capture_witness :
    recordingState.mediaRecorder = true
    ∧ (step recordingState Event.userDisconnect
        = { recordingState with wsRef := none, isConnected := false }
      ∧ (step (step recordingState Event.userDisconnect)
            Event.stopRecEvt).mediaRecorder = false
      ∧ (step (step recordingState Event.userDisconnect)
            Event.stopRecEvt).releases = recordingState.releases + 1
      ∧ (step (step recordingState Event.userDisconnect)
            Event.stopRecEvt).isRecording = false) :=
  ⟨rfl, c8_disconnect_leaves_capture recordingState rfl⟩

/-- C9 (counterexample): `stopRecording()` with no capture active is
not a no-op on the observable state: although it performs no teardown
and raises no error, it still appends the system log entry
"🎤 Enregistrement arrêté", so the event log changes. -/
theorem c9_counterexample :
    initClientState.mediaRecorder = false
    ∧ initClientState.isRecording = false
    ∧ (step initClientState Event.stopRecEvt).logs ≠ initClientState.logs
    ∧ (step initClientState Event.stopRecEvt).logs
      = [⟨"system", "🎤 Enregistrement arrêté"⟩] := by
  refine ⟨rfl, rfl, by decide, rfl⟩

/-- C9 (amended): calling `stop()` on the Capture Pipeline when no
capture is active returns without error and performs no teardown (no
resource is released, the recorder stays absent), but it is not
observation-free: it still appends the system log entry
"🎤 Enregistrement arrêté" and (re)sets the recording flag to false.
Calling stop after an active capture and then again is safe: the
second call releases nothing further. -/
theorem c9_stop_idempotent (s t : ClientState)
    (h : s.mediaRecorder = false) :
    step s Event.stopRecEvt
        = { s with
            isRecording := false
            logs := logsPush s.logs ⟨"system", "🎤 Enregistrement arrêté"⟩ }
    ∧ (step t Event.stopRecEvt).mediaRecorder = false
    ∧ (step (step t Event.stopRecEvt) Event.stopRecEvt).releases
        = (step t Event.stopRecEvt).releases := by
  have hm : ∀ u : ClientState, (step u Event.stopRecEvt).mediaRecorder
      = false := by
    intro u
    by_cases hu : u.mediaRecorder <;> simp [step, hu]
  refine ⟨by simp [step, h], hm t, ?_⟩
  by_cases ht : t.mediaRecorder <;> simp [step, ht]

theorem c9_stop_idempotent_witness :
    initClientState.mediaRecorder = false
    ∧ (step initClientState Event.stopRecEvt
        = { initClientState with
            isRecording := false
            logs := logsPush initClientState.logs
              ⟨"system", "🎤 Enregistrement arrêté"⟩ }
      ∧ (step recordingState Event.stopRecEvt).mediaRecorder = false
      ∧ (step (step recordingState Event.stopRecEvt)
            Event.stopRecEvt).releases
        = (step recordingState Event.stopRecEvt).releases) :=
  ⟨rfl, c9_stop_idempotent initClientState recordingState rfl⟩

/-- C2: Both dispatchers map every control-message type to its log
category exactly as claimed — session.created to system, transcription
to user, response.text to agent, audio.start and audio.end to audio,
error to error — and every type outside the recognized set falls to
the default arm: a system-category entry whose message is the raw type
string in brackets.  The dispatcher is a total function, so no
unhandled-type fault can arise. -/
theorem c2_dispatch_mapping (t m ty : String)
    (h : ty ∉ recognizedTypes) :
    reactDispatch "session.created" t m = ⟨"system", "🎙️ Session prête"⟩
    ∧ reactDispatch "transcription" t m = ⟨"user", "🗣️ " ++ t⟩
    ∧ reactDispatch "response.text" t m = ⟨"agent", "🤖 " ++ t⟩
    ∧ reactDispatch "audio.start" t m = ⟨"audio", "🔊 Audio en cours..."⟩
    ∧ reactDispatch "audio.end" t m = ⟨"audio", "🔇 Audio terminé"⟩
    ∧ reactDispatch "error" t m = ⟨"error", "❌ " ++ m⟩
    ∧ reactDispatch ty t m = ⟨"system", "[" ++ ty ++ "]"⟩
    ∧ flutterDispatch "session.created" t m = ⟨"system", "🎙️ Session prête"⟩
    ∧ flutterDispatch "transcription" t m = ⟨"user", "🗣️ " ++ t⟩
    ∧ flutterDispatch "response.text" t m = ⟨"agent", "🤖 " ++ t⟩
    ∧ flutterDispatch "audio.start" t m = ⟨"audio", "🔊 Audio en cours..."⟩
    ∧ flutterDispatch "audio.end" t m = ⟨"audio", "🔇 Audio terminé"⟩
    ∧ flutterDispatch "error" t m = ⟨"error", "❌ " ++ m⟩
    ∧ flutterDispatch ty t m = ⟨"system", "[" ++ ty ++ "]"⟩ := by
  simp only [recognizedTypes, List.mem_cons, List.not_mem_nil, or_false,
    not_or] at h
  obtain ⟨h1, h2, h3, h4, h5, h6⟩ := h
  refine ⟨by simp [reactDispatch], by simp [reactDispatch],
    by simp [reactDispatch], by simp [reactDispatch],
    by simp [reactDispatch], by simp [reactDispatch],
    by simp [reactDispatch, h1, h2, h3, h4, h5, h6],
    by simp [flutterDispatch], by simp [flutterDispatch],
    by simp [flutterDispatch], by simp [flutterDispatch],
    by simp [flutterDispatch], by simp [flutterDispatch],
    by simp [flutterDispatch, h1, h2, h3, h4, h5, h6]⟩

theorem c2_dispatch_mapping_witness :
    "ping" ∉ recognizedTypes
    ∧ (reactDispatch "session.created" "salut" "oops"
          = ⟨"system", "🎙️ Session prête"⟩
      ∧ reactDispatch "transcription" "salut" "oops" = ⟨"user", "🗣️ salut"⟩
      ∧ reactDispatch "response.text" "salut" "oops" = ⟨"agent", "🤖 salut"⟩
      ∧ reactDispatch "audio.start" "salut" "oops"
          = ⟨"audio", "🔊 Audio en cours..."⟩
      ∧ reactDispatch "audio.end" "salut" "oops"
          = ⟨"audio", "🔇 Audio terminé"⟩
      ∧ reactDispatch "error" "salut" "oops" = ⟨"error", "❌ oops"⟩
      ∧ reactDispatch "ping" "salut" "oops" = ⟨"system", "[ping]"⟩
      ∧ flutterDispatch "session.created" "salut" "oops"
          = ⟨"system", "🎙️ Session prête"⟩
      ∧ flutterDispatch "transcription" "salut" "oops"
          = ⟨"user", "🗣️ salut"⟩
      ∧ flutterDispatch "response.text" "salut" "oops"
          = ⟨"agent", "🤖 salut"⟩
      ∧ flutterDispatch "audio.start" "salut" "oops"
          = ⟨"audio", "🔊 Audio en cours..."⟩
      ∧ flutterDispatch "audio.end" "salut" "oops"
          = ⟨"audio", "🔇 Audio terminé"⟩
      ∧ flutterDispatch "error" "salut" "oops" = ⟨"error", "❌ oops"⟩
      ∧ flutterDispatch "ping" "salut" "oops" = ⟨"system", "[ping]"⟩) :=
  ⟨by decide, c2_dispatch_mapping "salut" "oops" "ping" (by decide)⟩

/-- C10: Each of the recognized-taxonomy types that is absent from the
dispatch switch — response.start, response.end, session.update,
input.text, conversation.clear, memory.clear, ping — is routed through
the default arm in both clients, producing a system-category entry
whose message is just the bracketed raw type; and processing such a
textual message changes nothing in the client state except appending
that one log entry. -/
theorem c10_unlisted_types_default (s : ClientState) (ty t m : String) :
    reactDispatch "response.start" t m = ⟨"system", "[response.start]"⟩
    ∧ reactDispatch "response.end" t m = ⟨"system", "[response.end]"⟩
    ∧ reactDispatch "session.update" t m = ⟨"system", "[session.update]"⟩
    ∧ reactDispatch "input.text" t m = ⟨"system", "[input.text]"⟩
    ∧ reactDispatch "conversation.clear" t m
        = ⟨"system", "[conversation.clear]"⟩
    ∧ reactDispatch "memory.clear" t m = ⟨"system", "[memory.clear]"⟩
    ∧ reactDispatch "ping" t m = ⟨"system", "[ping]"⟩
    ∧ flutterDispatch "response.start" t m = ⟨"system", "[response.start]"⟩
    ∧ flutterDispatch "response.end" t m = ⟨"system", "[response.end]"⟩
    ∧ flutterDispatch "session.update" t m = ⟨"system", "[session.update]"⟩
    ∧ flutterDispatch "input.text" t m = ⟨"system", "[input.text]"⟩
    ∧ flutterDispatch "conversation.clear" t m
        = ⟨"system", "[conversation.clear]"⟩
    ∧ flutterDispatch "memory.clear" t m = ⟨"system", "[memory.clear]"⟩
    ∧ flutterDispatch "ping" t m = ⟨"system", "[ping]"⟩
    ∧ step s (Event.recvText ty t m)
        = { s with logs := logsPush s.logs (reactDispatch ty t m) } := by
  refine ⟨?_, ?_, ?_, ?_, ?_, ?_, ?_, ?_, ?_, ?_, ?_, ?_, ?_, ?_, rfl⟩
    <;> simp [reactDispatch, flutterDispatch]

/-- C7 (counterexample): the React client gates the handshake on the
fetch `ok` flag, which is true for every 2xx status, not only 200: a
201 response with a well-formed body is accepted — a WebSocket is
constructed and no error is logged — contradicting the claim that
every status other than 200 fails. -/
theorem c7_counterexample :
    (201 : Nat) ≠ 200
    ∧ reactConnect ⟨201, "abc", "ws://h/ws/abc"⟩
      = { attempts := 1, wsUrl := some "ws://h/ws/abc"
          errorLogs := [], connectedFlag := false } := by
  exact ⟨by decide, rfl⟩

/-- C7 (amended): the handshake makes exactly one request with no
automatic retry in both clients; it fails — an error entry is logged,
no streaming connection is opened, and the connected flag stays false —
for every response outside the 2xx range in the React client (which
tests the fetch `ok` flag) and for every status other than 200 in the
Flutter client. -/
theorem c7_handshake_failure (r q : HandshakeResp)
    (hr : fetchOk r.status = false) (hq : q.status ≠ 200) :
    reactConnect r
        = { attempts := 1, wsUrl := none
            errorLogs :=
              [⟨"error", "Connexion échouée: HTTP " ++ toString r.status⟩]
            connectedFlag := false }
    ∧ flutterConnect q
        = { attempts := 1, wsUrl := none
            errorLogs := [⟨"error", "Erreur HTTP: " ++ toString q.status⟩]
            connectedFlag := false }
    ∧ (reactConnect r).attempts = 1
    ∧ (flutterConnect q).attempts = 1 := by
  refine ⟨by simp [reactConnect, hr], by simp [flutterConnect, hq], ?_, ?_⟩
  · unfold reactConnect; split <;> rfl
  · unfold flutterConnect; split <;> rfl

theorem c7_handshake_failure_witness :
    fetchOk 500 = false
    ∧ (500 : Nat) ≠ 200
    ∧ (reactConnect ⟨500, "abc", "ws://h/ws/abc"⟩
        = { attempts := 1, wsUrl := none
            errorLogs := [⟨"error", "Connexion échouée: HTTP 500"⟩]
            connectedFlag := false }
      ∧ flutterConnect ⟨500, "abc", "ws://h/ws/abc"⟩
        = { attempts := 1, wsUrl := none
            errorLogs := [⟨"error", "Erreur HTTP: 500"⟩]
            connectedFlag := false }
      ∧ (reactConnect ⟨500, "abc", "ws://h/ws/abc"⟩).attempts = 1
      ∧ (flutterConnect ⟨500, "abc", "ws://h/ws/abc"⟩).attempts = 1) :=
  ⟨rfl, by decide,
   c7_handshake_failure ⟨500, "abc", "ws://h/ws/abc"⟩
     ⟨500, "abc", "ws://h/ws/abc"⟩ rfl (by decide)⟩
